import Mathlib

/-!
Verification of the terrE-pi-socket-py movement-control core.

The repository has two source files, `webserver.py` (a socket.io client
driving a PCA9685 via the adafruit library) and `flask-direct-server.py`
(a Flask-SocketIO server driving the PCA9685 over raw smbus).  Both share
the same mutable motion state (`movement`, `movement_thread`,
`current_direction`, `wheel_thresholds`, `stop_timer`) and the same
`start_movement` logic, so the state and the shared operations live in
namespace `Robot`; the file-specific handlers live in namespaces
`Webserver` and `FlaskServer`.

Modelling conventions:
* Python floats are modelled as exact rationals `ℚ`; Python `int()`
  (truncation toward zero) is `Robot.pyInt`.
* The PCA9685 is modelled as the vector of the last value written to each
  of its 16 channels (`duty_cycle` for webserver.py, the `off` count of
  `set_pwm(ch, 0, off)` for flask-direct-server.py); writing 0 is the
  "neutral/hold" output.
* Handlers run atomically (the transport dispatches one event at a time);
  one iteration of the background `move_loop` is the atomic `tick` step.
  A spawned `move_loop` thread is represented by `movement_thread = some ()`
  together with the instrumentation counter `live_loops` counting loop
  threads that have been spawned and neither exited nor been joined.
* A `threading.Timer` is a record of its deadline and its `cancel()`/fired
  flags, kept in the list `timers` of all timers ever created; the Python
  variable `stop_timer` is modelled as an optional index into that list
  (dropping the reference does not cancel the timer, exactly as in Python).
-/

namespace Robot

/-- Python `int(q)`: truncation toward zero of an exact rational. -/
def pyInt (q : ℚ) : ℤ := if 0 ≤ q then ⌊q⌋ else -⌊-q⌋

/-- A `threading.Timer(deadline, stop_movement)` object: its absolute
deadline, whether `cancel()` has been called, and whether it has fired. -/
structure TimerRec where
  deadline : ℚ
  cancelled : Bool
  fired : Bool

/-- The module-level mutable state shared by both source files
(`movement`, `movement_thread`, `current_direction`, `wheel_thresholds`,
`stop_timer`) together with the modelled PCA9685 channel outputs and the
list of all timers ever created.  `live_loops` is the instrumentation
counter for running `move_loop` threads. -/
structure State where
  movement : Bool
  movement_thread : Option Unit
  live_loops : ℕ
  current_direction : Option String
  wheel_thresholds : Fin 4 → ℚ
  timers : List TimerRec
  stop_timer : Option ℕ
  channels : Fin 16 → ℤ

/-- Process start: `movement = False`, no thread, no direction,
`wheel_thresholds = [0, 0, 0, 0]`, no timer, and all 16 PCA9685 channels
initialised to 0 (webserver.py line 45-46, flask-direct-server.py
`pca9685_init` lines 44-45). -/
def initState : State :=
  { movement := false
    movement_thread := none
    live_loops := 0
    current_direction := none
    wheel_thresholds := fun _ => 0
    timers := []
    stop_timer := none
    channels := fun _ => 0 }

/-- Write a single channel of the PCA9685. -/
def setChannel (ch : Fin 16 → ℤ) (k : Fin 16) (v : ℤ) : Fin 16 → ℤ :=
  fun i => if i = k then v else ch i

/-- `for i in range(4): <set channel i to 0>` — zero the four drive
channels, leaving channels 4-15 untouched. -/
def zeroDrive (ch : Fin 16 → ℤ) : Fin 16 → ℤ :=
  fun i => if i.val < 4 then 0 else ch i

/-- The PCA9685 channel of drive wheel `i` (wheels use channels 0-3). -/
def wheelCh (i : Fin 4) : Fin 16 := ⟨i.val, Nat.lt_of_lt_of_le i.isLt (by norm_num)⟩

/-- The PCA9685 channel of the lift servo (channel 4 in both files). -/
def liftCh : Fin 16 := 4

/-- `timers[i].cancel()`. -/
def cancelAt : List TimerRec → ℕ → List TimerRec
  | [], _ => []
  | r :: ts, 0 => { r with cancelled := true } :: ts
  | r :: ts, Nat.succ n => r :: cancelAt ts n

/-- Mark timer `i` as having fired. -/
def markFiredAt : List TimerRec → ℕ → List TimerRec
  | [], _ => []
  | r :: ts, 0 => { r with fired := true } :: ts
  | r :: ts, Nat.succ n => r :: markFiredAt ts n

/-- Timer `i` is pending: it exists, was never cancelled and has not
fired yet.  A pending timer's callback `stop_movement` will run at its
deadline. -/
def pendingIdx (ts : List TimerRec) (i : ℕ) : Bool :=
  match ts[i]? with
  | some r => !r.cancelled && !r.fired
  | none => false

/-- Number of pending (armed, not yet fired) stop timers. -/
def countPending (ts : List TimerRec) : ℕ :=
  (ts.filter fun r => !r.cancelled && !r.fired).length

/-- The `stop_timer` reference covers every pending timer: no pending
timer has been leaked by dropping its reference without `cancel()`. -/
def TimerConsistent (s : State) : Prop :=
  ∀ i, pendingIdx s.timers i = true → s.stop_timer = some i

/-- `if movement_thread: movement_thread.join(); movement_thread = None`
(identical in both files).  Joining removes the loop thread. -/
def joinThread (s : State) : State :=
  match s.movement_thread with
  | some _ => { s with movement_thread := none, live_loops := s.live_loops - 1 }
  | none => s

/-- `if stop_timer: stop_timer.cancel()` — cancel the referenced timer,
if a reference is held. -/
def cancelRef (s : State) : State :=
  match s.stop_timer with
  | some i => { s with timers := cancelAt s.timers i }
  | none => s

/-- `if stop_timer: stop_timer.cancel()` followed by
`stop_timer = threading.Timer(0.6, stop_movement); stop_timer.start()` —
the watchdog-arming tail of the `move` handlers in both files
(webserver.py lines 108-114, flask-direct-server.py e.g. lines 369-372).
`now` is the absolute time at which the handler runs. -/
def armTimer (s : State) (now : ℚ) : State :=
  let s1 := cancelRef s
  { s1 with
    timers := s1.timers ++ [⟨now + 3/5, false, false⟩]
    stop_timer := some s1.timers.length }

/-- `start_movement(direction, thresholds=None)` — identical in both
files (webserver.py lines 68-78, flask-direct-server.py lines 123-133):
`if thresholds: wheel_thresholds = thresholds` (a 4-element Python list
is always truthy, so `some` always updates), then if not already moving
set the flag, record the direction and spawn a `move_loop` thread, else
only switch `current_direction` in place. -/
def start_movement (s : State) (direction : String)
    (thresholds : Option (Fin 4 → ℚ)) : State :=
  let s1 := match thresholds with
    | some t => { s with wheel_thresholds := t }
    | none => s
  if s1.movement then
    { s1 with current_direction := some direction }
  else
    { s1 with
      movement := true
      current_direction := some direction
      movement_thread := some ()
      live_loops := s1.live_loops + 1 }

end Robot

namespace Webserver

/-- webserver.py line 25. -/
def SERVO_MIN_PULSE : ℤ := 1000
/-- webserver.py line 26. -/
def SERVO_MAX_PULSE : ℤ := 2000
/-- webserver.py line 27. -/
def SERVO_NEUTRAL : ℤ := 1500

/-- The clamp applied by `pulse_to_bits` (webserver.py line 31):
`max(SERVO_MIN_PULSE, min(SERVO_MAX_PULSE, pulse_us))`. -/
def pulse_clamp (pulse_us : ℤ) : ℤ :=
  max SERVO_MIN_PULSE (min SERVO_MAX_PULSE pulse_us)

/-- webserver.py lines 30-32: clamp the pulse width to
[SERVO_MIN_PULSE, SERVO_MAX_PULSE], then convert to the 16-bit
duty-cycle value `int(pulse_us / 1000000 * 50 * 65535)`. -/
def pulse_to_bits (pulse_us : ℤ) : ℤ :=
  Robot.pyInt ((pulse_clamp pulse_us : ℚ) / 1000000 * 50 * 65535)

/-- webserver.py lines 35-37: clamp throttle to [-1, 1], then
`int(SERVO_NEUTRAL + throttle * (SERVO_MAX_PULSE - SERVO_NEUTRAL))`. -/
def throttle_to_pulse (throttle : ℚ) : ℤ :=
  Robot.pyInt ((SERVO_NEUTRAL : ℚ) +
    max (-1) (min 1 throttle) * ((SERVO_MAX_PULSE : ℚ) - (SERVO_NEUTRAL : ℚ)))

/-- webserver.py lines 40-42: clamp angle to [0, 180], then
`int(SERVO_MIN_PULSE + (angle / 180) * (SERVO_MAX_PULSE - SERVO_MIN_PULSE))`. -/
def angle_to_pulse (angle : ℚ) : ℤ :=
  Robot.pyInt ((SERVO_MIN_PULSE : ℚ) +
    max 0 (min 180 angle) / 180 * ((SERVO_MAX_PULSE : ℚ) - (SERVO_MIN_PULSE : ℚ)))

/-- webserver.py lines 80-91 `stop_movement()`: set `movement = False`,
zero the four drive channels, join and clear the `move_loop` thread, and
set `stop_timer = None`.  Unlike flask-direct-server.py, this variant
only clears the reference — it never calls `stop_timer.cancel()`. -/
def stop_movement (s : Robot.State) : Robot.State :=
  { Robot.joinThread
      { s with movement := false, channels := Robot.zeroDrive s.channels } with
    stop_timer := none }

/-- webserver.py lines 102-114 `on_move(thresholds)`:
`start_movement('move', thresholds)`, cancel the referenced timer if any,
then arm a fresh 0.6 s stop timer. -/
def on_move (s : Robot.State) (now : ℚ) (thresholds : Fin 4 → ℚ) : Robot.State :=
  Robot.armTimer (Robot.start_movement s "move" (some thresholds)) now

/-- webserver.py lines 116-123 `on_lift(angle)`: clamp the angle to
[0, 180], convert via `angle_to_pulse` and `pulse_to_bits`, and write
channel 4.  Nothing else is touched. -/
def on_lift (s : Robot.State) (angle : ℚ) : Robot.State :=
  { s with
    channels := Robot.setChannel s.channels Robot.liftCh
      (pulse_to_bits (angle_to_pulse (max 0 (min 180 angle)))) }

/-- webserver.py lines 125-128 `on_stop()`: just `stop_movement()`. -/
def on_stop (s : Robot.State) : Robot.State := stop_movement s

/-- webserver.py lines 98-100: the `disconnect` handler only prints a
message; it mutates no state at all. -/
def disconnect (s : Robot.State) : Robot.State := s

/-- The channel writes of one `move_loop` iteration (webserver.py lines
57-64): if `current_direction == 'move'` (the truthy `wheel_thresholds`
conjunct always holds for a 4-element list), then for each wheel 0-3 a
zero per-wheel value writes duty 0 and a non-zero value writes
`pulse_to_bits(throttle_to_pulse(value))`. -/
def tickChannels (s : Robot.State) : Fin 16 → ℤ := fun i =>
  if s.current_direction = some "move" then
    if h : i.val < 4 then
      (if s.wheel_thresholds ⟨i.val, h⟩ = 0 then 0
       else pulse_to_bits (throttle_to_pulse (s.wheel_thresholds ⟨i.val, h⟩)))
    else s.channels i
  else s.channels i

/-- One iteration of `move_loop` (webserver.py lines 54-66): the loop
body runs only while `movement` is true (`while movement:`). -/
def tick (s : Robot.State) : Robot.State :=
  if s.movement then { s with channels := tickChannels s } else s

/-- A pending `threading.Timer` fires: its callback `stop_movement` runs
and the timer is spent.  A cancelled or already-fired timer does nothing. -/
def fireTimer (s : Robot.State) (i : ℕ) : Robot.State :=
  if Robot.pendingIdx s.timers i then
    let s1 := stop_movement s
    { s1 with timers := Robot.markFiredAt s1.timers i }
  else s

/-- The state during the 1 s dwell of the diagnostic handlers
`on_servo_0` .. `on_servo_3` (webserver.py lines 131-206, identical up
to the wheel index `k`): `movement = False`, join and clear the thread,
zero all four drive channels, then write the requested throttle to
channel `k` — a zero value writes duty 0, a non-zero value writes
`pulse_to_bits(throttle_to_pulse(value))`. -/
def on_servo_dwell (s : Robot.State) (k : Fin 4) (value : ℚ) : Robot.State :=
  let s1 := Robot.joinThread { s with movement := false }
  let s2 := { s1 with channels := Robot.zeroDrive s1.channels }
  if value = 0 then
    { s2 with channels := Robot.setChannel s2.channels (Robot.wheelCh k) 0 }
  else
    { s2 with
      channels := Robot.setChannel s2.channels (Robot.wheelCh k)
        (pulse_to_bits (throttle_to_pulse value)) }

/-- The final state of a diagnostic handler, reached after the
`time.sleep(1)` dwell: all four drive channels are zeroed again before
the handler returns. -/
def on_servo (s : Robot.State) (k : Fin 4) (value : ℚ) : Robot.State :=
  { on_servo_dwell s k value with
    channels := Robot.zeroDrive (on_servo_dwell s k value).channels }

/-- The atomic events webserver.py can process: the socket.io handlers
(`move` carries the wall-clock time at which the watchdog is armed),
one `move_loop` iteration, and the expiry of a pending stop timer. -/
inductive Event where
  | move (now : ℚ) (ths : Fin 4 → ℚ)
  | stop
  | lift (angle : ℚ)
  | tick
  | fire (i : ℕ)
  | disconnect
  | servo (k : Fin 4) (value : ℚ)

/-- Event semantics of webserver.py. -/
def stepEvent (s : Robot.State) : Event → Robot.State
  | .move now ths => on_move s now ths
  | .stop => on_stop s
  | .lift a => on_lift s a
  | .tick => tick s
  | .fire i => fireTimer s i
  | .disconnect => disconnect s
  | .servo k v => on_servo s k v

/-- States reachable from process start under webserver.py's handlers. -/
inductive Reachable : Robot.State → Prop where
  | init : Reachable Robot.initState
  | next : ∀ (s : Robot.State) (e : Event), Reachable s → Reachable (stepEvent s e)

end Webserver

namespace FlaskServer

/-- flask-direct-server.py line 28. -/
def SERVO_MIN_PULSE : ℤ := 150
/-- flask-direct-server.py line 29. -/
def SERVO_MAX_PULSE : ℤ := 600
/-- flask-direct-server.py line 30. -/
def SERVO_NEUTRAL : ℤ := 375

/-- The clamp applied by `set_servo_pulse` (flask-direct-server.py line
88): `max(SERVO_MIN_PULSE, min(SERVO_MAX_PULSE, pulse))`. -/
def pulse_clamp (pulse : ℤ) : ℤ :=
  max SERVO_MIN_PULSE (min SERVO_MAX_PULSE pulse)

/-- flask-direct-server.py lines 86-89 `set_servo_pulse(channel, pulse)`:
clamp the pulse to [SERVO_MIN_PULSE, SERVO_MAX_PULSE] and write it as
the `off` count of `set_pwm(channel, 0, pulse)`. -/
def set_servo_pulse (s : Robot.State) (channel : Fin 16) (pulse : ℤ) : Robot.State :=
  { s with channels := Robot.setChannel s.channels channel (pulse_clamp pulse) }

/-- flask-direct-server.py lines 92-94: clamp throttle to [-1, 1], then
`int(SERVO_NEUTRAL + throttle * (SERVO_MAX_PULSE - SERVO_NEUTRAL) / 2)`. -/
def throttle_to_pulse (throttle : ℚ) : ℤ :=
  Robot.pyInt ((SERVO_NEUTRAL : ℚ) +
    max (-1) (min 1 throttle) * ((SERVO_MAX_PULSE : ℚ) - (SERVO_NEUTRAL : ℚ)) / 2)

/-- flask-direct-server.py lines 97-99: clamp angle to [0, 180], then
`int(SERVO_MIN_PULSE + (angle / 180) * (SERVO_MAX_PULSE - SERVO_MIN_PULSE))`. -/
def angle_to_pulse (angle : ℚ) : ℤ :=
  Robot.pyInt ((SERVO_MIN_PULSE : ℚ) +
    max 0 (min 180 angle) / 180 * ((SERVO_MAX_PULSE : ℚ) - (SERVO_MIN_PULSE : ℚ)))

/-- flask-direct-server.py lines 135-148 `stop_movement()`: set
`movement = False`, zero the four drive channels (`set_pwm(i, 0, 0)`),
join and clear the `move_loop` thread, then — unlike webserver.py —
`if stop_timer: stop_timer.cancel()` before clearing the reference. -/
def stop_movement (s : Robot.State) : Robot.State :=
  { Robot.cancelRef
      (Robot.joinThread
        { s with movement := false, channels := Robot.zeroDrive s.channels }) with
    stop_timer := none }

/-- flask-direct-server.py lines 164-167 `set_lift(angle)`: clamp the
angle to [0, 180] and apply it to channel 4 via `angle_to_pulse` and
`set_servo_pulse`. -/
def set_lift (s : Robot.State) (angle : ℚ) : Robot.State :=
  set_servo_pulse s Robot.liftCh (angle_to_pulse (max 0 (min 180 angle)))

/-- flask-direct-server.py lines 361-396 `handle_move(direction)`:
dispatch on the direction word; the four presets (lines 151-162) call
`start_movement` with their fixed 4-element throttle vector and then arm
a fresh 0.6 s stop timer (cancelling the referenced one); `'stop'` calls
`stop_movement()`; any other word is ignored. -/
def handle_move (s : Robot.State) (now : ℚ) (direction : String) : Robot.State :=
  if direction = "forward" then
    Robot.armTimer (Robot.start_movement s "forward" (some ![1/2, -1/2, 1/2, -1/2])) now
  else if direction = "backward" then
    Robot.armTimer (Robot.start_movement s "backward" (some ![-1/2, 1/2, -1/2, 1/2])) now
  else if direction = "left" then
    Robot.armTimer (Robot.start_movement s "left" (some ![1/2, 1/2, 1/2, 1/2])) now
  else if direction = "right" then
    Robot.armTimer (Robot.start_movement s "right" (some ![-1/2, -1/2, -1/2, -1/2])) now
  else if direction = "stop" then
    stop_movement s
  else s

/-- flask-direct-server.py lines 356-359 `handle_disconnect()`: prints,
then calls `stop_movement()` ("Safety measure: stop all movement when
client disconnects"). -/
def handle_disconnect (s : Robot.State) : Robot.State := stop_movement s

/-- Python truthiness of the optional `current_direction` string:
`None` and the empty string are falsy. -/
def truthyDir : Option String → Bool
  | some d => !(d == "")
  | none => false

/-- The channel writes of one `move_loop` iteration
(flask-direct-server.py lines 112-120): if `current_direction` is truthy
(a non-empty string), each wheel with per-wheel value 0 gets
`set_pwm(i, 0, 0)` and each non-zero value gets
`set_servo_pulse(i, throttle_to_pulse(value))`. -/
def tickChannels (s : Robot.State) : Fin 16 → ℤ := fun i =>
  if truthyDir s.current_direction then
    if h : i.val < 4 then
      (if s.wheel_thresholds ⟨i.val, h⟩ = 0 then 0
       else pulse_clamp (throttle_to_pulse (s.wheel_thresholds ⟨i.val, h⟩)))
    else s.channels i
  else s.channels i

/-- One iteration of `move_loop` (flask-direct-server.py lines 110-121). -/
def tick (s : Robot.State) : Robot.State :=
  if s.movement then { s with channels := tickChannels s } else s

end FlaskServer

namespace Robot

@[simp] lemma setChannel_self (ch : Fin 16 → ℤ) (k : Fin 16) (v : ℤ) :
    setChannel ch k v k = v := by simp [setChannel]

lemma setChannel_ne (ch : Fin 16 → ℤ) (k : Fin 16) (v : ℤ) {i : Fin 16}
    (h : i ≠ k) : setChannel ch k v i = ch i := by simp [setChannel, h]

lemma zeroDrive_lt (ch : Fin 16 → ℤ) {i : Fin 16} (h : i.val < 4) :
    zeroDrive ch i = 0 := by simp [zeroDrive, h]

lemma zeroDrive_ge (ch : Fin 16 → ℤ) {i : Fin 16} (h : ¬ i.val < 4) :
    zeroDrive ch i = ch i := by simp [zeroDrive, h]

@[simp] lemma pendingIdx_nil (i : ℕ) : pendingIdx [] i = false := by
  simp [pendingIdx]

@[simp] lemma pendingIdx_cons_zero (r : TimerRec) (ts : List TimerRec) :
    pendingIdx (r :: ts) 0 = (!r.cancelled && !r.fired) := by
  simp [pendingIdx]

@[simp] lemma pendingIdx_cons_succ (r : TimerRec) (ts : List TimerRec) (n : ℕ) :
    pendingIdx (r :: ts) (n + 1) = pendingIdx ts n := by
  simp [pendingIdx]

lemma pendingIdx_of_le {ts : List TimerRec} {i : ℕ} (h : ts.length ≤ i) :
    pendingIdx ts i = false := by
  simp [pendingIdx, List.getElem?_eq_none h]

@[simp] lemma cancelAt_length (ts : List TimerRec) (i : ℕ) :
    (cancelAt ts i).length = ts.length := by
  induction ts generalizing i with
  | nil => simp [cancelAt]
  | cons r ts ih =>
    cases i with
    | zero => simp [cancelAt]
    | succ n => simp [cancelAt, ih]

@[simp] lemma markFiredAt_length (ts : List TimerRec) (i : ℕ) :
    (markFiredAt ts i).length = ts.length := by
  induction ts generalizing i with
  | nil => simp [markFiredAt]
  | cons r ts ih =>
    cases i with
    | zero => simp [markFiredAt]
    | succ n => simp [markFiredAt, ih]

lemma pendingIdx_cancelAt_self (ts : List TimerRec) (i : ℕ) :
    pendingIdx (cancelAt ts i) i = false := by
  induction ts generalizing i with
  | nil => simp [cancelAt]
  | cons r ts ih =>
    cases i with
    | zero => simp [cancelAt]
    | succ n => simpa [cancelAt] using ih n

lemma pendingIdx_cancelAt_ne (ts : List TimerRec) {i j : ℕ} (h : j ≠ i) :
    pendingIdx (cancelAt ts i) j = pendingIdx ts j := by
  induction ts generalizing i j with
  | nil => simp [cancelAt]
  | cons r ts ih =>
    cases i with
    | zero =>
      cases j with
      | zero => exact absurd rfl h
      | succ m => simp [cancelAt]
    | succ n =>
      cases j with
      | zero => simp [cancelAt]
      | succ m => simpa [cancelAt] using ih (fun hh => h (by omega))

lemma pendingIdx_markFiredAt_self (ts : List TimerRec) (i : ℕ) :
    pendingIdx (markFiredAt ts i) i = false := by
  induction ts generalizing i with
  | nil => simp [markFiredAt]
  | cons r ts ih =>
    cases i with
    | zero => simp [markFiredAt]
    | succ n => simpa [markFiredAt] using ih n

lemma pendingIdx_markFiredAt_ne (ts : List TimerRec) {i j : ℕ} (h : j ≠ i) :
    pendingIdx (markFiredAt ts i) j = pendingIdx ts j := by
  induction ts generalizing i j with
  | nil => simp [markFiredAt]
  | cons r ts ih =>
    cases i with
    | zero =>
      cases j with
      | zero => exact absurd rfl h
      | succ m => simp [markFiredAt]
    | succ n =>
      cases j with
      | zero => simp [markFiredAt]
      | succ m => simpa [markFiredAt] using ih (fun hh => h (by omega))

lemma pendingIdx_concat (ts : List TimerRec) (r : TimerRec) (j : ℕ) :
    pendingIdx (ts ++ [r]) j =
      if j < ts.length then pendingIdx ts j
      else if j = ts.length then (!r.cancelled && !r.fired)
      else false := by
  induction ts generalizing j with
  | nil =>
    cases j with
    | zero => simp
    | succ m => simp
  | cons q ts ih =>
    cases j with
    | zero => simp
    | succ m =>
      simp only [List.cons_append, pendingIdx_cons_succ, ih m, List.length_cons]
      by_cases h1 : m < ts.length
      · simp [h1, Nat.succ_lt_succ h1]
      · by_cases h2 : m = ts.length <;> simp [h1, h2]

lemma getElem?_concat_self (ts : List TimerRec) (r : TimerRec) :
    (ts ++ [r])[ts.length]? = some r := by
  induction ts with
  | nil => simp
  | cons q ts ih => simp [ih]

/-! Field-effect lemmas for the shared operations. -/

@[simp] lemma joinThread_movement (s : State) :
    (joinThread s).movement = s.movement := by
  cases h : s.movement_thread <;> simp [joinThread, h]

@[simp] lemma joinThread_thread (s : State) :
    (joinThread s).movement_thread = none := by
  cases h : s.movement_thread <;> simp [joinThread, h]

lemma joinThread_live (s : State) :
    (joinThread s).live_loops =
      if s.movement_thread.isSome then s.live_loops - 1 else s.live_loops := by
  cases h : s.movement_thread <;> simp [joinThread, h]

@[simp] lemma joinThread_dir (s : State) :
    (joinThread s).current_direction = s.current_direction := by
  cases h : s.movement_thread <;> simp [joinThread, h]

@[simp] lemma joinThread_thresholds (s : State) :
    (joinThread s).wheel_thresholds = s.wheel_thresholds := by
  cases h : s.movement_thread <;> simp [joinThread, h]

@[simp] lemma joinThread_timers (s : State) :
    (joinThread s).timers = s.timers := by
  cases h : s.movement_thread <;> simp [joinThread, h]

@[simp] lemma joinThread_stop_timer (s : State) :
    (joinThread s).stop_timer = s.stop_timer := by
  cases h : s.movement_thread <;> simp [joinThread, h]

@[simp] lemma joinThread_channels (s : State) :
    (joinThread s).channels = s.channels := by
  cases h : s.movement_thread <;> simp [joinThread, h]

@[simp] lemma cancelRef_movement (s : State) :
    (cancelRef s).movement = s.movement := by
  cases h : s.stop_timer <;> simp [cancelRef, h]

@[simp] lemma cancelRef_thread (s : State) :
    (cancelRef s).movement_thread = s.movement_thread := by
  cases h : s.stop_timer <;> simp [cancelRef, h]

@[simp] lemma cancelRef_live (s : State) :
    (cancelRef s).live_loops = s.live_loops := by
  cases h : s.stop_timer <;> simp [cancelRef, h]

@[simp] lemma cancelRef_dir (s : State) :
    (cancelRef s).current_direction = s.current_direction := by
  cases h : s.stop_timer <;> simp [cancelRef, h]

@[simp] lemma cancelRef_thresholds (s : State) :
    (cancelRef s).wheel_thresholds = s.wheel_thresholds := by
  cases h : s.stop_timer <;> simp [cancelRef, h]

@[simp] lemma cancelRef_stop_timer (s : State) :
    (cancelRef s).stop_timer = s.stop_timer := by
  cases h : s.stop_timer <;> simp [cancelRef, h]

@[simp] lemma cancelRef_channels (s : State) :
    (cancelRef s).channels = s.channels := by
  cases h : s.stop_timer <;> simp [cancelRef, h]

@[simp] lemma cancelRef_timers_length (s : State) :
    (cancelRef s).timers.length = s.timers.length := by
  cases h : s.stop_timer <;> simp [cancelRef, h]

@[simp] lemma armTimer_movement (s : State) (now : ℚ) :
    (armTimer s now).movement = s.movement := by simp [armTimer]

@[simp] lemma armTimer_thread (s : State) (now : ℚ) :
    (armTimer s now).movement_thread = s.movement_thread := by simp [armTimer]

@[simp] lemma armTimer_live (s : State) (now : ℚ) :
    (armTimer s now).live_loops = s.live_loops := by simp [armTimer]

@[simp] lemma armTimer_dir (s : State) (now : ℚ) :
    (armTimer s now).current_direction = s.current_direction := by simp [armTimer]

@[simp] lemma armTimer_thresholds (s : State) (now : ℚ) :
    (armTimer s now).wheel_thresholds = s.wheel_thresholds := by simp [armTimer]

@[simp] lemma armTimer_channels (s : State) (now : ℚ) :
    (armTimer s now).channels = s.channels := by simp [armTimer]

@[simp] lemma armTimer_stop_timer (s : State) (now : ℚ) :
    (armTimer s now).stop_timer = some s.timers.length := by simp [armTimer]

lemma armTimer_timers (s : State) (now : ℚ) :
    (armTimer s now).timers = (cancelRef s).timers ++ [⟨now + 3/5, false, false⟩] := by
  simp [armTimer]

@[simp] lemma start_movement_movement (s : State) (d : String)
    (th : Option (Fin 4 → ℚ)) : (start_movement s d th).movement = true := by
  cases th <;> by_cases h : s.movement <;> simp [start_movement, h]

@[simp] lemma start_movement_dir (s : State) (d : String)
    (th : Option (Fin 4 → ℚ)) :
    (start_movement s d th).current_direction = some d := by
  cases th <;> by_cases h : s.movement <;> simp [start_movement, h]

@[simp] lemma start_movement_thresholds_some (s : State) (d : String)
    (t : Fin 4 → ℚ) : (start_movement s d (some t)).wheel_thresholds = t := by
  by_cases h : s.movement <;> simp [start_movement, h]

@[simp] lemma start_movement_channels (s : State) (d : String)
    (th : Option (Fin 4 → ℚ)) : (start_movement s d th).channels = s.channels := by
  cases th <;> by_cases h : s.movement <;> simp [start_movement, h]

@[simp] lemma start_movement_timers (s : State) (d : String)
    (th : Option (Fin 4 → ℚ)) : (start_movement s d th).timers = s.timers := by
  cases th <;> by_cases h : s.movement <;> simp [start_movement, h]

@[simp] lemma start_movement_stop_timer (s : State) (d : String)
    (th : Option (Fin 4 → ℚ)) :
    (start_movement s d th).stop_timer = s.stop_timer := by
  cases th <;> by_cases h : s.movement <;> simp [start_movement, h]

lemma start_movement_thread (s : State) (d : String) (th : Option (Fin 4 → ℚ)) :
    (start_movement s d th).movement_thread =
      if s.movement then s.movement_thread else some () := by
  cases th <;> by_cases h : s.movement <;> simp [start_movement, h]

lemma start_movement_live (s : State) (d : String) (th : Option (Fin 4 → ℚ)) :
    (start_movement s d th).live_loops =
      if s.movement then s.live_loops else s.live_loops + 1 := by
  cases th <;> by_cases h : s.movement <;> simp [start_movement, h]

end Robot

namespace Robot

/-- From a state whose `stop_timer` reference covers every pending timer,
`if stop_timer: stop_timer.cancel()` leaves no pending timer at all. -/
lemma cancelRef_not_pending {s : State} (hcons : TimerConsistent s) (j : ℕ) :
    pendingIdx (cancelRef s).timers j = false := by
  cases hst : s.stop_timer with
  | none =>
    simp only [cancelRef, hst]
    cases hp : pendingIdx s.timers j with
    | false => rfl
    | true =>
      have hj := hcons j hp
      rw [hst] at hj
      exact absurd hj (by simp)
  | some k =>
    simp only [cancelRef, hst]
    by_cases hjk : j = k
    · rw [hjk]
      exact pendingIdx_cancelAt_self _ _
    · rw [pendingIdx_cancelAt_ne _ hjk]
      cases hp : pendingIdx s.timers j with
      | false => rfl
      | true =>
        have hj := hcons j hp
        rw [hst] at hj
        exact absurd (Option.some.inj hj).symm hjk

/-- Arming the watchdog from a consistent state leaves exactly one
pending timer: the newly created one. -/
lemma armTimer_pending_iff {s : State} (hcons : TimerConsistent s)
    (now : ℚ) (j : ℕ) :
    (pendingIdx (armTimer s now).timers j = true) ↔ j = s.timers.length := by
  rw [armTimer_timers, pendingIdx_concat, cancelRef_timers_length]
  by_cases h1 : j < s.timers.length
  · simp [h1, cancelRef_not_pending hcons j, Nat.ne_of_lt h1]
  · by_cases h2 : j = s.timers.length <;> simp [h1, h2]

/-- The newly armed timer: deadline `now + 0.6`, not cancelled, not
fired. -/
lemma armTimer_deadline (s : State) (now : ℚ) :
    (armTimer s now).timers[s.timers.length]? =
      some ⟨now + 3/5, false, false⟩ := by
  rw [armTimer_timers, ← cancelRef_timers_length s]
  exact getElem?_concat_self _ _

/-- Arming preserves consistency of the `stop_timer` reference. -/
lemma armTimer_consistent {s : State} (hcons : TimerConsistent s) (now : ℚ) :
    TimerConsistent (armTimer s now) := by
  intro j hp
  rw [armTimer_pending_iff hcons now j] at hp
  rw [hp]
  simp

@[simp] lemma armTimer_length (s : State) (now : ℚ) :
    (armTimer s now).timers.length = s.timers.length + 1 := by
  rw [armTimer_timers]
  simp

lemma start_movement_consistent {s : State} (hcons : TimerConsistent s)
    (d : String) (th : Option (Fin 4 → ℚ)) :
    TimerConsistent (start_movement s d th) := by
  intro j hp
  rw [start_movement_timers] at hp
  rw [start_movement_stop_timer]
  exact hcons j hp

end Robot

namespace Webserver

@[simp] lemma stop_movement_movement (s : Robot.State) :
    (stop_movement s).movement = false := by simp [stop_movement]

@[simp] lemma stop_movement_thread (s : Robot.State) :
    (stop_movement s).movement_thread = none := by simp [stop_movement]

@[simp] lemma stop_movement_channels (s : Robot.State) :
    (stop_movement s).channels = Robot.zeroDrive s.channels := by
  simp [stop_movement]

@[simp] lemma stop_movement_stop_timer (s : Robot.State) :
    (stop_movement s).stop_timer = none := by simp [stop_movement]

@[simp] lemma stop_movement_timers (s : Robot.State) :
    (stop_movement s).timers = s.timers := by simp [stop_movement]

@[simp] lemma stop_movement_dir (s : Robot.State) :
    (stop_movement s).current_direction = s.current_direction := by
  simp [stop_movement]

@[simp] lemma stop_movement_thresholds (s : Robot.State) :
    (stop_movement s).wheel_thresholds = s.wheel_thresholds := by
  simp [stop_movement]

lemma stop_movement_live (s : Robot.State) :
    (stop_movement s).live_loops =
      if s.movement_thread.isSome then s.live_loops - 1 else s.live_loops := by
  simp [stop_movement, Robot.joinThread_live]

@[simp] lemma on_lift_movement (s : Robot.State) (a : ℚ) :
    (on_lift s a).movement = s.movement := by simp [on_lift]

@[simp] lemma on_lift_thread (s : Robot.State) (a : ℚ) :
    (on_lift s a).movement_thread = s.movement_thread := by simp [on_lift]

@[simp] lemma on_lift_live (s : Robot.State) (a : ℚ) :
    (on_lift s a).live_loops = s.live_loops := by simp [on_lift]

@[simp] lemma on_lift_dir (s : Robot.State) (a : ℚ) :
    (on_lift s a).current_direction = s.current_direction := by simp [on_lift]

@[simp] lemma on_lift_thresholds (s : Robot.State) (a : ℚ) :
    (on_lift s a).wheel_thresholds = s.wheel_thresholds := by simp [on_lift]

@[simp] lemma on_lift_timers (s : Robot.State) (a : ℚ) :
    (on_lift s a).timers = s.timers := by simp [on_lift]

@[simp] lemma on_lift_stop_timer (s : Robot.State) (a : ℚ) :
    (on_lift s a).stop_timer = s.stop_timer := by simp [on_lift]

/-- The four drive channels all read zero. -/
def drivesZero (s : Robot.State) : Prop :=
  ∀ i : Fin 16, i.val < 4 → s.channels i = 0

/-- The inductive invariant of webserver.py's event system: the
`movement` flag tracks exactly whether a `move_loop` thread is live, at
most one loop thread is ever live, an active state always has direction
`'move'`, and an inactive state has all four drive channels zeroed. -/
def Inv (s : Robot.State) : Prop :=
  s.movement = s.movement_thread.isSome ∧
  s.live_loops = (if s.movement_thread.isSome then 1 else 0) ∧
  (s.movement = true → s.current_direction = some "move") ∧
  (s.movement = false → drivesZero s)

lemma inv_init : Inv Robot.initState := by
  refine ⟨by simp [Robot.initState], by simp [Robot.initState], ?_, ?_⟩
  · intro h; simp [Robot.initState] at h
  · intro _ i _; simp [Robot.initState]

lemma inv_stop_movement {s : Robot.State} (h : Inv s) : Inv (stop_movement s) := by
  obtain ⟨h1, h2, h3, h4⟩ := h
  refine ⟨by simp, ?_, by simp, ?_⟩
  · cases hmt : s.movement_thread <;>
      simp [stop_movement_live, hmt, hmt ▸ h2]
  · intro _ i hi
    simp [Robot.zeroDrive_lt _ hi]

lemma inv_on_move {s : Robot.State} (h : Inv s) (now : ℚ) (ths : Fin 4 → ℚ) :
    Inv (on_move s now ths) := by
  obtain ⟨h1, h2, h3, h4⟩ := h
  by_cases hm : s.movement
  · have hsome : s.movement_thread.isSome = true := by rw [← h1]; exact hm
    refine ⟨?_, ?_, by simp [on_move], by simp [on_move]⟩
    · simp [on_move, Robot.start_movement_thread, hm, hsome]
    · simp [on_move, Robot.start_movement_thread, Robot.start_movement_live,
        hm, hsome, h2]
  · have hmf : s.movement = false := by simpa using hm
    have hnone : s.movement_thread = none := by
      cases hmt : s.movement_thread with
      | none => rfl
      | some u => rw [hmt] at h1; simp [hmf] at h1
    refine ⟨?_, ?_, by simp [on_move], by simp [on_move]⟩
    · simp [on_move, Robot.start_movement_thread, hmf]
    · have hl0 : s.live_loops = 0 := by simp [h2, hnone]
      simp [on_move, Robot.start_movement_thread, Robot.start_movement_live,
        hmf, hl0]

lemma inv_on_lift {s : Robot.State} (h : Inv s) (a : ℚ) : Inv (on_lift s a) := by
  obtain ⟨h1, h2, h3, h4⟩ := h
  refine ⟨by simpa using h1, by simpa using h2, by simpa using h3, ?_⟩
  intro hm i hi
  have hch : s.channels i = 0 := h4 (by simpa using hm) i hi
  have hne : i ≠ Robot.liftCh := by
    intro hik
    have h4' : i.val = 4 := by rw [hik]; rfl
    omega
  simp only [on_lift]
  rw [Robot.setChannel_ne _ _ _ hne]
  exact hch

lemma inv_tick {s : Robot.State} (h : Inv s) : Inv (tick s) := by
  obtain ⟨h1, h2, h3, h4⟩ := h
  by_cases hm : s.movement
  · refine ⟨by simpa [tick, hm] using h1, by simpa [tick, hm] using h2,
      by simpa [tick, hm] using h3, ?_⟩
    intro hcontra
    simp [tick, hm] at hcontra
  · simpa [tick, hm] using ⟨h1, h2, h3, h4⟩

lemma inv_fire {s : Robot.State} (h : Inv s) (i : ℕ) : Inv (fireTimer s i) := by
  by_cases hp : Robot.pendingIdx s.timers i
  · have h' := inv_stop_movement h
    obtain ⟨h1, h2, h3, h4⟩ := h'
    refine ⟨?_, ?_, ?_, ?_⟩ <;> simp_all [fireTimer, hp, drivesZero]
  · simpa [fireTimer, hp] using h

lemma inv_on_servo {s : Robot.State} (h : Inv s) (k : Fin 4) (v : ℚ) :
    Inv (on_servo s k v) := by
  obtain ⟨h1, h2, h3, h4⟩ := h
  refine ⟨?_, ?_, ?_, ?_⟩
  · simp [on_servo, on_servo_dwell]
    by_cases hv : v = 0 <;> simp [hv]
  · simp [on_servo, on_servo_dwell, Robot.joinThread_live]
    by_cases hv : v = 0 <;>
      cases hmt : s.movement_thread <;>
        simp [hv, hmt, hmt ▸ h2]
  · intro hcontra
    simp [on_servo, on_servo_dwell] at hcontra
    by_cases hv : v = 0 <;> simp [hv] at hcontra
  · intro _ i hi
    simp [on_servo]
    by_cases hv : v = 0 <;>
      simp [hv, Robot.zeroDrive_lt _ hi]

lemma inv_step {s : Robot.State} (h : Inv s) (e : Event) : Inv (stepEvent s e) := by
  cases e with
  | move now ths => exact inv_on_move h now ths
  | stop => exact inv_stop_movement h
  | lift a => exact inv_on_lift h a
  | tick => exact inv_tick h
  | fire i => exact inv_fire h i
  | disconnect => exact h
  | servo k v => exact inv_on_servo h k v

/-- Every state reachable under webserver.py's handlers satisfies the
inductive invariant. -/
lemma reachable_inv {s : Robot.State} (h : Reachable s) : Inv s := by
  induction h with
  | init => exact inv_init
  | next s e _ ih => exact inv_step ih e

/-- `on_move` from a timer-consistent state: exactly the newly armed
timer is pending. -/
lemma on_move_pending_iff {s : Robot.State} (hcons : Robot.TimerConsistent s)
    (now : ℚ) (ths : Fin 4 → ℚ) (j : ℕ) :
    (Robot.pendingIdx (on_move s now ths).timers j = true) ↔
      j = s.timers.length := by
  unfold on_move
  rw [Robot.armTimer_pending_iff (Robot.start_movement_consistent hcons _ _),
    Robot.start_movement_timers]

lemma on_move_deadline (s : Robot.State) (now : ℚ) (ths : Fin 4 → ℚ) :
    (on_move s now ths).timers[s.timers.length]? =
      some ⟨now + 3/5, false, false⟩ := by
  unfold on_move
  rw [← Robot.start_movement_timers s "move" (some ths)]
  exact Robot.armTimer_deadline _ now

lemma on_move_consistent {s : Robot.State} (hcons : Robot.TimerConsistent s)
    (now : ℚ) (ths : Fin 4 → ℚ) :
    Robot.TimerConsistent (on_move s now ths) := by
  unfold on_move
  exact Robot.armTimer_consistent (Robot.start_movement_consistent hcons _ _) now

@[simp] lemma on_move_timers_length (s : Robot.State) (now : ℚ) (ths : Fin 4 → ℚ) :
    (on_move s now ths).timers.length = s.timers.length + 1 := by
  simp [on_move]

/-- Firing the unique pending timer leaves no pending timer and stops
motion: the forced stop fires exactly once. -/
lemma fire_unique_clears {u : Robot.State} {m : ℕ}
    (huniq : ∀ j, (Robot.pendingIdx u.timers j = true) ↔ j = m) :
    (∀ j, Robot.pendingIdx (fireTimer u m).timers j = false) ∧
    (fireTimer u m).movement = false := by
  have hpm : Robot.pendingIdx u.timers m = true := (huniq m).mpr rfl
  constructor
  · intro j
    simp only [fireTimer, hpm, if_true]
    simp only [stop_movement_timers]
    by_cases hj : j = m
    · rw [hj]
      exact Robot.pendingIdx_markFiredAt_self _ _
    · rw [Robot.pendingIdx_markFiredAt_ne _ hj]
      cases hp : Robot.pendingIdx u.timers j with
      | false => rfl
      | true => exact absurd ((huniq j).mp hp) hj
  · simp [fireTimer, hpm]

end Webserver

/-! ## Concrete scenarios used by the claims -/

/-- A `move` event at time `t` with all four wheels at throttle 0.5. -/
def moveHalf (t : ℚ) : Webserver.Event :=
  Webserver.Event.move t ![1/2, 1/2, 1/2, 1/2]

/-- webserver.py state after one `move` at time 0 (motion active, all
wheels at 0.5, watchdog armed for `t = 3/5`). -/
def sAfterMove : Robot.State := Webserver.stepEvent Robot.initState (moveHalf 0)

/-- webserver.py state after that `move` followed by a `stop`. -/
def sAfterStop : Robot.State := Webserver.stepEvent sAfterMove Webserver.Event.stop

/-- webserver.py state after `move`@0, `stop`, `move`@0.1, `move`@0.2 —
a pair of `move` commands arriving within the safety window, from a
reachable state that holds a leaked pending timer. -/
def c4state : Robot.State :=
  Webserver.stepEvent
    (Webserver.stepEvent sAfterStop (moveHalf (1/10))) (moveHalf (2/10))

lemma sAfterMove_reachable : Webserver.Reachable sAfterMove :=
  Webserver.Reachable.next _ _ Webserver.Reachable.init

lemma sAfterStop_reachable : Webserver.Reachable sAfterStop :=
  Webserver.Reachable.next _ _ sAfterMove_reachable

/-! ## Claims -/

/-- C1: the claim says delivery of the transport disconnect event behaves
as an implicit `stop()` — movement flag false and all four drive channels
zero within one tick.  flask-direct-server.py complies (its handler calls
`stop_movement()`), but webserver.py's `disconnect` handler only prints:
after a disconnect while motion is active the movement flag is still
true and the very next `move_loop` tick re-asserts the non-zero duty
5734 on channel 0.  This theorem evaluates both handlers at that failing
input. -/
theorem C1_webserver_disconnect_is_not_stop :
    (Webserver.stepEvent sAfterMove Webserver.Event.disconnect).movement = true ∧
    (Webserver.stepEvent
      (Webserver.stepEvent sAfterMove Webserver.Event.disconnect)
      Webserver.Event.tick).channels (Robot.wheelCh 0) = 5734 ∧
    (5734 : ℤ) ≠ 0 ∧
    (FlaskServer.handle_disconnect
      (FlaskServer.handle_move Robot.initState 0 "forward")).movement = false ∧
    (∀ i : Fin 4,
      (FlaskServer.handle_disconnect
        (FlaskServer.handle_move Robot.initState 0 "forward")).channels
          (Robot.wheelCh i) = 0) := by
  refine ⟨?_, ?_, by norm_num, ?_, ?_⟩
  · simp [sAfterMove, moveHalf, Webserver.stepEvent, Webserver.disconnect,
      Webserver.on_move]
  · simp [sAfterMove, moveHalf, Webserver.stepEvent, Webserver.disconnect,
      Webserver.tick, Webserver.tickChannels, Webserver.on_move, Robot.wheelCh]
    norm_num [Webserver.pulse_to_bits, Webserver.throttle_to_pulse,
      Webserver.pulse_clamp, Webserver.SERVO_MIN_PULSE, Webserver.SERVO_MAX_PULSE,
      Webserver.SERVO_NEUTRAL, Robot.pyInt]
  · simp [FlaskServer.handle_disconnect, FlaskServer.stop_movement]
  · intro i
    simp [FlaskServer.handle_disconnect, FlaskServer.stop_movement]
    exact Robot.zeroDrive_lt _ (by simp [Robot.wheelCh])

/-- C5: the claim says processing the stop command cancels the pending
armed watchdog timer, so the deferred stop never fires after `stop()`
returns.  In webserver.py `stop_movement` only does `stop_timer = None`
without calling `cancel()`: after `move`@0 then `stop`, the reference is
cleared but the 0.6 s timer is still pending and will still fire — and if
a new `move` arrives at 0.1 the leaked timer's firing force-stops that
new motion.  flask-direct-server.py's `stop_movement` does cancel
(`if stop_timer: stop_timer.cancel()`), leaving zero pending timers from
the same scenario. -/
theorem C5_webserver_stop_leaks_pending_timer :
    sAfterStop.stop_timer = none ∧
    Robot.countPending sAfterStop.timers = 1 ∧
    Robot.pendingIdx sAfterStop.timers 0 = true ∧
    sAfterStop.timers[0]? =
      some { deadline := 3/5, cancelled := false, fired := false } ∧
    (Webserver.stepEvent sAfterStop (moveHalf (1/10))).movement = true ∧
    (Webserver.stepEvent
      (Webserver.stepEvent sAfterStop (moveHalf (1/10)))
      (Webserver.Event.fire 0)).movement = false ∧
    Robot.countPending
      (FlaskServer.stop_movement
        (FlaskServer.handle_move Robot.initState 0 "forward")).timers = 0 := by
  refine ⟨?_, ?_, ?_, ?_, ?_, ?_, ?_⟩
  · simp [sAfterStop, sAfterMove, moveHalf, Webserver.stepEvent,
      Webserver.on_stop, Webserver.on_move]
  · simp [sAfterStop, sAfterMove, moveHalf, Webserver.stepEvent,
      Webserver.on_stop, Webserver.on_move, Robot.armTimer, Robot.cancelRef,
      Robot.initState, Robot.countPending, List.filter]
  · simp [sAfterStop, sAfterMove, moveHalf, Webserver.stepEvent,
      Webserver.on_stop, Webserver.on_move, Robot.armTimer, Robot.cancelRef,
      Robot.initState, Robot.pendingIdx]
  · simp [sAfterStop, sAfterMove, moveHalf, Webserver.stepEvent,
      Webserver.on_stop, Webserver.on_move, Robot.armTimer, Robot.cancelRef,
      Robot.initState]
  · simp [sAfterStop, sAfterMove, moveHalf, Webserver.stepEvent,
      Webserver.on_stop, Webserver.on_move]
  · simp [sAfterStop, sAfterMove, moveHalf, Webserver.stepEvent,
      Webserver.on_stop, Webserver.on_move, Robot.armTimer, Robot.cancelRef,
      Robot.initState, Robot.cancelAt, Webserver.fireTimer, Robot.pendingIdx]
  · simp [FlaskServer.stop_movement, FlaskServer.handle_move,
      Robot.armTimer, Robot.cancelRef, Robot.initState, Robot.cancelAt,
      Robot.countPending, List.filter, Robot.joinThread]

/-- C4 counterexample: from the reachable webserver.py state
`move`@0, `stop` (which leaks a pending timer, see C5), the pair of
`move` commands at 0.1 and 0.2 — both within the safety window — leaves
TWO pending stop actions (the leaked one at deadline 0.6 and the new one
at 0.8), not at most one; the leaked timer fires at 0.6, which is
neither of the pair's deadlines (0.7, 0.8), it force-stops the motion,
and the second timer is still pending afterwards, so the forced stop
does not fire exactly once. -/
theorem C4_counterexample :
    Robot.countPending c4state.timers = 2 ∧
    Robot.pendingIdx c4state.timers 0 = true ∧
    c4state.timers[0]? =
      some { deadline := 3/5, cancelled := false, fired := false } ∧
    (3/5 : ℚ) ≠ 1/10 + 3/5 ∧
    (3/5 : ℚ) ≠ 2/10 + 3/5 ∧
    (Webserver.stepEvent c4state (Webserver.Event.fire 0)).movement = false ∧
    Robot.pendingIdx
      (Webserver.stepEvent c4state (Webserver.Event.fire 0)).timers 2 = true := by
  refine ⟨?_, ?_, ?_, by norm_num, by norm_num, ?_, ?_⟩
  · simp [c4state, sAfterStop, sAfterMove, moveHalf, Webserver.stepEvent,
      Webserver.on_stop, Webserver.on_move, Robot.armTimer, Robot.cancelRef,
      Robot.initState, Robot.cancelAt, Robot.countPending, List.filter]
  · simp [c4state, sAfterStop, sAfterMove, moveHalf, Webserver.stepEvent,
      Webserver.on_stop, Webserver.on_move, Robot.armTimer, Robot.cancelRef,
      Robot.initState, Robot.cancelAt, Robot.pendingIdx]
  · simp [c4state, sAfterStop, sAfterMove, moveHalf, Webserver.stepEvent,
      Webserver.on_stop, Webserver.on_move, Robot.armTimer, Robot.cancelRef,
      Robot.initState, Robot.cancelAt]
  · simp [c4state, sAfterStop, sAfterMove, moveHalf, Webserver.stepEvent,
      Webserver.on_stop, Webserver.on_move, Robot.armTimer, Robot.cancelRef,
      Robot.initState, Robot.cancelAt, Webserver.fireTimer, Robot.pendingIdx]
  · simp [c4state, sAfterStop, sAfterMove, moveHalf, Webserver.stepEvent,
      Webserver.on_stop, Webserver.on_move, Robot.armTimer, Robot.cancelRef,
      Robot.initState, Robot.cancelAt, Webserver.fireTimer, Robot.pendingIdx,
      Robot.markFiredAt]

/-- C6 counterexample: after `move` with all wheels at 0.5 followed by
`stop`, the movement flag is false but the `wheel_thresholds` vector
still holds the stale value 0.5 — `stop_movement` zeroes the channels
but never resets `wheel_thresholds`, so "all four entries of the
per-wheel throttle vector are zero" is false in this reachable state. -/
theorem C6_counterexample :
    sAfterStop.movement = false ∧
    sAfterStop.wheel_thresholds 0 = 1/2 ∧
    (1/2 : ℚ) ≠ 0 := by
  refine ⟨?_, ?_, by norm_num⟩
  · simp [sAfterStop, sAfterMove, moveHalf, Webserver.stepEvent,
      Webserver.on_stop, Webserver.on_move]
  · simp [sAfterStop, sAfterMove, moveHalf, Webserver.stepEvent,
      Webserver.on_stop, Webserver.on_move]

/-- C2: when `stop_movement` returns, the movement flag is false, all
four drive channels hold zero, the `move_loop` thread has been joined
(no loop thread is live) and the thread handle is cleared — the zeroing
happens inside `stop_movement` itself, i.e. synchronously before it
returns.  The flask-direct-server.py variant gives the same guarantee
on any state. -/
theorem C2_stop_movement_synchronous (s : Robot.State)
    (h : Webserver.Reachable s) :
    (Webserver.stop_movement s).movement = false ∧
    (∀ i : Fin 4, (Webserver.stop_movement s).channels (Robot.wheelCh i) = 0) ∧
    (Webserver.stop_movement s).movement_thread = none ∧
    (Webserver.stop_movement s).live_loops = 0 ∧
    (∀ f : Robot.State,
      (FlaskServer.stop_movement f).movement = false ∧
      (∀ i : Fin 4, (FlaskServer.stop_movement f).channels (Robot.wheelCh i) = 0) ∧
      (FlaskServer.stop_movement f).movement_thread = none) := by
  obtain ⟨h1, h2, -, -⟩ := Webserver.reachable_inv h
  refine ⟨by simp, ?_, by simp, ?_, ?_⟩
  · intro i
    simp only [Webserver.stop_movement_channels]
    exact Robot.zeroDrive_lt _ i.isLt
  · rw [Webserver.stop_movement_live]
    cases hmt : s.movement_thread with
    | none => rw [hmt] at h2; simpa using h2
    | some u => rw [hmt] at h2; simp at h2; simp [h2]
  · intro f
    refine ⟨by simp [FlaskServer.stop_movement], ?_,
      by simp [FlaskServer.stop_movement]⟩
    intro i
    simp only [FlaskServer.stop_movement, Robot.cancelRef_channels,
      Robot.joinThread_channels]
    exact Robot.zeroDrive_lt _ i.isLt

theorem C2_stop_movement_synchronous_witness :
    Webserver.Reachable Robot.initState ∧
    (Webserver.stop_movement Robot.initState).live_loops = 0 :=
  ⟨Webserver.Reachable.init,
    (C2_stop_movement_synchronous Robot.initState Webserver.Reachable.init).2.2.2.1⟩

/-- C3: in every reachable webserver.py state at most one `move_loop`
thread is live, and `start_movement` spawns a thread only when the
movement flag is false — when already active it leaves the thread and
the loop count untouched and only updates `current_direction` and
`wheel_thresholds` in place (both files share this `start_movement`
verbatim). -/
theorem C3_at_most_one_drive_loop (s : Robot.State)
    (h : Webserver.Reachable s) :
    s.live_loops ≤ 1 ∧
    (∀ (d : String) (t : Fin 4 → ℚ),
      (Robot.start_movement s d (some t)).movement_thread =
        (if s.movement then s.movement_thread else some ()) ∧
      (Robot.start_movement s d (some t)).live_loops =
        (if s.movement then s.live_loops else s.live_loops + 1) ∧
      (Robot.start_movement s d (some t)).current_direction = some d ∧
      (Robot.start_movement s d (some t)).wheel_thresholds = t ∧
      (Robot.start_movement s d (some t)).movement = true) := by
  obtain ⟨h1, h2, -, -⟩ := Webserver.reachable_inv h
  refine ⟨?_, ?_⟩
  · rw [h2]; split <;> norm_num
  · intro d t
    exact ⟨Robot.start_movement_thread _ _ _, Robot.start_movement_live _ _ _,
      by simp, by simp, by simp⟩

theorem C3_at_most_one_drive_loop_witness :
    Webserver.Reachable Robot.initState ∧ Robot.initState.live_loops ≤ 1 :=
  ⟨Webserver.Reachable.init,
    (C3_at_most_one_drive_loop Robot.initState Webserver.Reachable.init).1⟩

/-- C6 (amended): in every reachable webserver.py state with the
movement flag false, all four drive channels hold zero and no
`move_loop` thread is live; the `wheel_thresholds` variable, however,
may retain stale non-zero values (see `C6_counterexample`) — harmless
because the loop is not running. -/
theorem C6_inactive_implies_channels_zero (s : Robot.State)
    (h : Webserver.Reachable s) (hm : s.movement = false) :
    Webserver.drivesZero s ∧ s.live_loops = 0 := by
  obtain ⟨h1, h2, -, h4⟩ := Webserver.reachable_inv h
  refine ⟨h4 hm, ?_⟩
  rw [hm] at h1
  rw [h2, ← h1]
  simp

theorem C6_inactive_implies_channels_zero_witness :
    Webserver.Reachable Robot.initState ∧ Robot.initState.movement = false ∧
    (Webserver.drivesZero Robot.initState ∧ Robot.initState.live_loops = 0) :=
  ⟨Webserver.Reachable.init, rfl,
    C6_inactive_implies_channels_zero Robot.initState Webserver.Reachable.init rfl⟩

/-- C7: on every `move_loop` tick while motion is active, each wheel
whose per-wheel value is 0 gets the neutral/hold output (duty 0) and
each wheel with a non-zero value gets the throttle-to-pulse encoding of
that value — zero is never passed through `throttle_to_pulse`.  (The
`current_direction == 'move'` guard always holds while active, by the
reachability invariant.) -/
theorem C7_tick_asserts_per_wheel (s : Robot.State)
    (h : Webserver.Reachable s) (hm : s.movement = true) :
    ∀ i : Fin 4, (Webserver.tick s).channels (Robot.wheelCh i) =
      (if s.wheel_thresholds i = 0 then 0
       else Webserver.pulse_to_bits
         (Webserver.throttle_to_pulse (s.wheel_thresholds i))) := by
  have hdir : s.current_direction = some "move" :=
    (Webserver.reachable_inv h).2.2.1 hm
  intro i
  simp [Webserver.tick, hm, Webserver.tickChannels, hdir, Robot.wheelCh,
    Fin.eta]

theorem C7_tick_asserts_per_wheel_witness :
    Webserver.Reachable sAfterMove ∧ sAfterMove.movement = true ∧
    (∀ i : Fin 4, (Webserver.tick sAfterMove).channels (Robot.wheelCh i) =
      (if sAfterMove.wheel_thresholds i = 0 then 0
       else Webserver.pulse_to_bits
         (Webserver.throttle_to_pulse (sAfterMove.wheel_thresholds i)))) := by
  have hm : sAfterMove.movement = true := by
    simp [sAfterMove, moveHalf, Webserver.stepEvent, Webserver.on_move]
  exact ⟨sAfterMove_reachable, hm,
    C7_tick_asserts_per_wheel sAfterMove sAfterMove_reachable hm⟩

/-- C8: the diagnostic `'0'` handler with throttle 0.5, on any reachable
state: it force-stops the drive loop (flag false, thread joined, no loop
live), and during the dwell channel 0 holds the pulse encoding of
throttle 0.5 (duty 5734) while channels 1-3 hold zero; the final state —
the one in which the handler returns, after the `time.sleep(1)` dwell —
re-zeroes all four drive channels. -/
theorem C8_servo0_diagnostic (s : Robot.State) (h : Webserver.Reachable s) :
    (Webserver.on_servo_dwell s 0 (1/2)).movement = false ∧
    (Webserver.on_servo_dwell s 0 (1/2)).movement_thread = none ∧
    (Webserver.on_servo_dwell s 0 (1/2)).live_loops = 0 ∧
    (Webserver.on_servo_dwell s 0 (1/2)).channels (Robot.wheelCh 0) =
      Webserver.pulse_to_bits (Webserver.throttle_to_pulse (1/2)) ∧
    Webserver.pulse_to_bits (Webserver.throttle_to_pulse (1/2)) = 5734 ∧
    (∀ i : Fin 4, i ≠ 0 →
      (Webserver.on_servo_dwell s 0 (1/2)).channels (Robot.wheelCh i) = 0) ∧
    Webserver.on_servo s 0 (1/2) =
      { Webserver.on_servo_dwell s 0 (1/2) with
        channels := Robot.zeroDrive (Webserver.on_servo_dwell s 0 (1/2)).channels } ∧
    (∀ i : Fin 4, (Webserver.on_servo s 0 (1/2)).channels (Robot.wheelCh i) = 0) := by
  obtain ⟨h1, h2, -, -⟩ := Webserver.reachable_inv h
  have hne : ¬ ((1 : ℚ)/2 = 0) := by norm_num
  refine ⟨?_, ?_, ?_, ?_, ?_, ?_, rfl, ?_⟩
  · simp [Webserver.on_servo_dwell, hne]
  · simp [Webserver.on_servo_dwell, hne]
  · simp only [Webserver.on_servo_dwell]
    rw [if_neg hne]
    cases hmt : s.movement_thread with
    | none => rw [hmt] at h2; simpa [Robot.joinThread_live, hmt] using h2
    | some u =>
      rw [hmt] at h2; simp at h2
      simp [Robot.joinThread_live, hmt, h2]
  · simp [Webserver.on_servo_dwell, hne]
  · norm_num [Webserver.pulse_to_bits, Webserver.throttle_to_pulse,
      Webserver.pulse_clamp, Webserver.SERVO_MIN_PULSE,
      Webserver.SERVO_MAX_PULSE, Webserver.SERVO_NEUTRAL, Robot.pyInt]
  · intro i hi
    have hch : Robot.wheelCh i ≠ Robot.wheelCh 0 := by
      intro hh
      have hv : (Robot.wheelCh i).val = (Robot.wheelCh 0).val :=
        congrArg Fin.val hh
      have hv' : i.val = (0 : Fin 4).val := hv
      exact hi (Fin.ext hv')
    simp only [Webserver.on_servo_dwell]
    rw [if_neg hne]
    dsimp only
    rw [Robot.setChannel_ne _ _ _ hch]
    exact Robot.zeroDrive_lt _ i.isLt
  · intro i
    simp only [Webserver.on_servo]
    exact Robot.zeroDrive_lt _ i.isLt

theorem C8_servo0_diagnostic_witness :
    Webserver.Reachable Robot.initState ∧
    (Webserver.on_servo_dwell Robot.initState 0 (1/2)).channels
      (Robot.wheelCh 0) =
        Webserver.pulse_to_bits (Webserver.throttle_to_pulse (1/2)) :=
  ⟨Webserver.Reachable.init,
    (C8_servo0_diagnostic Robot.initState Webserver.Reachable.init).2.2.2.1⟩

/-- C4 (amended): for a pair of `move` commands arming the watchdog
consecutively — i.e. starting from a state in which every pending timer
is the one referenced by `stop_timer` (any state not holding a timer
leaked by webserver.py's cancel-free `stop`, see `C4_counterexample`) —
the second arm cancels the first pending timer and replaces it: exactly
one timer is pending afterwards, carrying the second deadline
`t2 + 0.6` (distinct from the first), and firing it stops motion and
leaves nothing pending, so the forced stop fires exactly once, at the
second deadline and never at the first. -/
theorem C4_rearm_cancels_and_replaces (s : Robot.State)
    (hcons : Robot.TimerConsistent s) (t1 t2 : ℚ) (hlt : t1 < t2)
    (ths1 ths2 : Fin 4 → ℚ) :
    Robot.pendingIdx
      (Webserver.on_move (Webserver.on_move s t1 ths1) t2 ths2).timers
      s.timers.length = false ∧
    (∀ j, (Robot.pendingIdx
        (Webserver.on_move (Webserver.on_move s t1 ths1) t2 ths2).timers j
          = true) ↔ j = s.timers.length + 1) ∧
    (Webserver.on_move (Webserver.on_move s t1 ths1) t2
        ths2).timers[s.timers.length + 1]? =
      some ⟨t2 + 3/5, false, false⟩ ∧
    t2 + 3/5 ≠ t1 + 3/5 ∧
    (∀ j, Robot.pendingIdx
      (Webserver.fireTimer
        (Webserver.on_move (Webserver.on_move s t1 ths1) t2 ths2)
        (s.timers.length + 1)).timers j = false) ∧
    (Webserver.fireTimer
      (Webserver.on_move (Webserver.on_move s t1 ths1) t2 ths2)
      (s.timers.length + 1)).movement = false := by
  have hc1 := Webserver.on_move_consistent hcons t1 ths1
  have hlen : (Webserver.on_move s t1 ths1).timers.length = s.timers.length + 1 :=
    Webserver.on_move_timers_length s t1 ths1
  have hiff : ∀ j, (Robot.pendingIdx
      (Webserver.on_move (Webserver.on_move s t1 ths1) t2 ths2).timers j
        = true) ↔ j = s.timers.length + 1 := by
    intro j
    rw [Webserver.on_move_pending_iff hc1 t2 ths2 j, hlen]
  refine ⟨?_, hiff, ?_, ?_, (Webserver.fire_unique_clears hiff).1,
    (Webserver.fire_unique_clears hiff).2⟩
  · cases hp : Robot.pendingIdx
        (Webserver.on_move (Webserver.on_move s t1 ths1) t2 ths2).timers
        s.timers.length with
    | false => rfl
    | true =>
      have hj := (hiff _).mp hp
      omega
  · have hd := Webserver.on_move_deadline (Webserver.on_move s t1 ths1) t2 ths2
    rw [hlen] at hd
    exact hd
  · intro hh
    have ht : t2 = t1 := by linarith
    exact absurd ht (ne_of_gt hlt)

theorem C4_rearm_cancels_and_replaces_witness :
    Robot.TimerConsistent Robot.initState ∧ (0 : ℚ) < 1/10 ∧
    (Webserver.fireTimer
      (Webserver.on_move (Webserver.on_move Robot.initState 0 (fun _ => 1/2))
        (1/10) (fun _ => 1/2))
      (Robot.initState.timers.length + 1)).movement = false := by
  have hcons : Robot.TimerConsistent Robot.initState := by
    intro i hp
    simp [Robot.initState] at hp
  exact ⟨hcons, by norm_num,
    (C4_rearm_cancels_and_replaces Robot.initState hcons 0 (1/10) (by norm_num)
      (fun _ => 1/2) (fun _ => 1/2)).2.2.2.2.2⟩

/-- Clamping to [0, 180] is idempotent. -/
lemma clamp180_idem (a : ℚ) :
    max 0 (min 180 (max 0 (min 180 a))) = max 0 (min 180 a) := by
  have h1 : (0 : ℚ) ≤ max 0 (min 180 a) := le_max_left _ _
  have h2 : max 0 (min 180 a) ≤ 180 := max_le (by norm_num) (min_le_left _ _)
  rw [min_eq_right h2, max_eq_right h1]

/-- C9: the lift handlers clamp the angle into [0, 180] before applying
it (so any input produces the same state as its clamped value, and in
particular `lift(-10)` equals `lift(0)` and `lift(200)` equals
`lift(180)`, in both files), and `on_lift` touches nothing but the lift
channel: movement flag, thread, loop counter, direction, throttle
vector, timers, watchdog reference and the four drive channels are all
unchanged. -/
theorem C9_lift_clamped_and_independent :
    (∀ (s : Robot.State) (a : ℚ),
      (Webserver.on_lift s a).movement = s.movement ∧
      (Webserver.on_lift s a).movement_thread = s.movement_thread ∧
      (Webserver.on_lift s a).live_loops = s.live_loops ∧
      (Webserver.on_lift s a).current_direction = s.current_direction ∧
      (Webserver.on_lift s a).wheel_thresholds = s.wheel_thresholds ∧
      (Webserver.on_lift s a).timers = s.timers ∧
      (Webserver.on_lift s a).stop_timer = s.stop_timer ∧
      (∀ i : Fin 4, (Webserver.on_lift s a).channels (Robot.wheelCh i) =
        s.channels (Robot.wheelCh i)) ∧
      Webserver.on_lift s a = Webserver.on_lift s (max 0 (min 180 a))) ∧
    (∀ s, Webserver.on_lift s (-10) = Webserver.on_lift s 0) ∧
    (∀ s, Webserver.on_lift s 200 = Webserver.on_lift s 180) ∧
    (∀ s, FlaskServer.set_lift s (-10) = FlaskServer.set_lift s 0) ∧
    (∀ s, FlaskServer.set_lift s 200 = FlaskServer.set_lift s 180) := by
  refine ⟨?_, ?_, ?_, ?_, ?_⟩
  · intro s a
    refine ⟨by simp, by simp, by simp, by simp, by simp, by simp, by simp,
      ?_, ?_⟩
    · intro i
      have hch : Robot.wheelCh i ≠ Robot.liftCh := by
        intro hh
        have hv : (Robot.wheelCh i).val = Robot.liftCh.val := congrArg Fin.val hh
        have hv' : i.val = 4 := hv
        have h4 := i.isLt
        omega
      simp only [Webserver.on_lift]
      exact Robot.setChannel_ne _ _ _ hch
    · simp only [Webserver.on_lift, clamp180_idem]
  · intro s
    have h : max 0 (min 180 (-10 : ℚ)) = max 0 (min 180 (0 : ℚ)) := by norm_num
    simp only [Webserver.on_lift, h]
  · intro s
    have h : max 0 (min 180 (200 : ℚ)) = max 0 (min 180 (180 : ℚ)) := by norm_num
    simp only [Webserver.on_lift, h]
  · intro s
    have h : max 0 (min 180 (-10 : ℚ)) = max 0 (min 180 (0 : ℚ)) := by norm_num
    simp only [FlaskServer.set_lift, h]
  · intro s
    have h : max 0 (min 180 (200 : ℚ)) = max 0 (min 180 (180 : ℚ)) := by norm_num
    simp only [FlaskServer.set_lift, h]

/-- `int()` of a rational bounded between two non-negative integer
bounds stays between them. -/
lemma pyInt_le_bounds {q : ℚ} {lo hi : ℤ} (hlo : 0 ≤ lo) (h0 : (lo : ℚ) ≤ q)
    (h1 : q ≤ (hi : ℚ)) : lo ≤ Robot.pyInt q ∧ Robot.pyInt q ≤ hi := by
  have hq0 : (0 : ℚ) ≤ q := le_trans (by exact_mod_cast hlo) h0
  rw [Robot.pyInt, if_pos hq0]
  constructor
  · exact Int.le_floor.mpr h0
  · have h2 : ((⌊q⌋ : ℤ) : ℚ) ≤ (hi : ℚ) := (Int.floor_le q).trans h1
    exact_mod_cast h2

/-- C10: for every input throttle (arbitrary, including out-of-range),
the throttle-to-pulse stage clamps its input to [-1, 1] and therefore
already produces a pulse inside
[SERVO_MIN_PULSE, SERVO_MAX_PULSE], and the encoding stage
(`pulse_to_bits` in webserver.py, `set_servo_pulse` in
flask-direct-server.py) clamps any pulse into the same bounds before
the hardware write; the angle path satisfies the same bounds.  So no
out-of-range pulse ever reaches the hardware. -/
theorem C10_pulse_always_in_bounds :
    (∀ t : ℚ, Webserver.SERVO_MIN_PULSE ≤ Webserver.throttle_to_pulse t ∧
      Webserver.throttle_to_pulse t ≤ Webserver.SERVO_MAX_PULSE) ∧
    (∀ p : ℤ, Webserver.SERVO_MIN_PULSE ≤ Webserver.pulse_clamp p ∧
      Webserver.pulse_clamp p ≤ Webserver.SERVO_MAX_PULSE) ∧
    (∀ t : ℚ, FlaskServer.SERVO_MIN_PULSE ≤ FlaskServer.throttle_to_pulse t ∧
      FlaskServer.throttle_to_pulse t ≤ FlaskServer.SERVO_MAX_PULSE) ∧
    (∀ p : ℤ, FlaskServer.SERVO_MIN_PULSE ≤ FlaskServer.pulse_clamp p ∧
      FlaskServer.pulse_clamp p ≤ FlaskServer.SERVO_MAX_PULSE) ∧
    (∀ a : ℚ, Webserver.SERVO_MIN_PULSE ≤ Webserver.angle_to_pulse a ∧
      Webserver.angle_to_pulse a ≤ Webserver.SERVO_MAX_PULSE) ∧
    (∀ a : ℚ, FlaskServer.SERVO_MIN_PULSE ≤ FlaskServer.angle_to_pulse a ∧
      FlaskServer.angle_to_pulse a ≤ FlaskServer.SERVO_MAX_PULSE) := by
  refine ⟨?_, ?_, ?_, ?_, ?_, ?_⟩
  · intro t
    have hc1 : (-1 : ℚ) ≤ max (-1) (min 1 t) := le_max_left _ _
    have hc2 : max (-1 : ℚ) (min 1 t) ≤ 1 :=
      max_le (by norm_num) (min_le_left _ _)
    unfold Webserver.throttle_to_pulse
    refine pyInt_le_bounds (by norm_num [Webserver.SERVO_MIN_PULSE]) ?_ ?_ <;>
      · simp only [Webserver.SERVO_MIN_PULSE, Webserver.SERVO_MAX_PULSE,
          Webserver.SERVO_NEUTRAL]
        push_cast
        nlinarith [hc1, hc2]
  · intro p
    unfold Webserver.pulse_clamp
    exact ⟨le_max_left _ _,
      max_le (by norm_num [Webserver.SERVO_MIN_PULSE, Webserver.SERVO_MAX_PULSE])
        (min_le_left _ _)⟩
  · intro t
    have hc1 : (-1 : ℚ) ≤ max (-1) (min 1 t) := le_max_left _ _
    have hc2 : max (-1 : ℚ) (min 1 t) ≤ 1 :=
      max_le (by norm_num) (min_le_left _ _)
    unfold FlaskServer.throttle_to_pulse
    refine pyInt_le_bounds (by norm_num [FlaskServer.SERVO_MIN_PULSE]) ?_ ?_ <;>
      · simp only [FlaskServer.SERVO_MIN_PULSE, FlaskServer.SERVO_MAX_PULSE,
          FlaskServer.SERVO_NEUTRAL]
        push_cast
        nlinarith [hc1, hc2]
  · intro p
    unfold FlaskServer.pulse_clamp
    exact ⟨le_max_left _ _,
      max_le (by norm_num [FlaskServer.SERVO_MIN_PULSE, FlaskServer.SERVO_MAX_PULSE])
        (min_le_left _ _)⟩
  · intro a
    have hc1 : (0 : ℚ) ≤ max 0 (min 180 a) := le_max_left _ _
    have hc2 : max (0 : ℚ) (min 180 a) ≤ 180 :=
      max_le (by norm_num) (min_le_left _ _)
    have hd1 : (0 : ℚ) ≤ max 0 (min 180 a) / 180 * 1000 :=
      mul_nonneg (div_nonneg hc1 (by norm_num)) (by norm_num)
    have hd2 : max (0 : ℚ) (min 180 a) / 180 * 1000 ≤ 1000 := by
      rw [div_mul_eq_mul_div, div_le_iff₀ (by norm_num : (0 : ℚ) < 180)]
      nlinarith
    unfold Webserver.angle_to_pulse
    refine pyInt_le_bounds (by norm_num [Webserver.SERVO_MIN_PULSE]) ?_ ?_ <;>
      · simp only [Webserver.SERVO_MIN_PULSE, Webserver.SERVO_MAX_PULSE]
        push_cast
        linarith
  · intro a
    have hc1 : (0 : ℚ) ≤ max 0 (min 180 a) := le_max_left _ _
    have hc2 : max (0 : ℚ) (min 180 a) ≤ 180 :=
      max_le (by norm_num) (min_le_left _ _)
    have hd1 : (0 : ℚ) ≤ max 0 (min 180 a) / 180 * 450 :=
      mul_nonneg (div_nonneg hc1 (by norm_num)) (by norm_num)
    have hd2 : max (0 : ℚ) (min 180 a) / 180 * 450 ≤ 450 := by
      rw [div_mul_eq_mul_div, div_le_iff₀ (by norm_num : (0 : ℚ) < 180)]
      nlinarith
    unfold FlaskServer.angle_to_pulse
    refine pyInt_le_bounds (by norm_num [FlaskServer.SERVO_MIN_PULSE]) ?_ ?_ <;>
      · simp only [FlaskServer.SERVO_MIN_PULSE, FlaskServer.SERVO_MAX_PULSE]
        push_cast
        linarith
